import Mathlib

set_option maxRecDepth 100000

/-!
Verification development for the identity-resolution / deduplication engine
of the repository (source: src/utils/dedupe.py).

The Python code is shallowly embedded as executable Lean definitions:
  - `Candidate` mirrors the dataclass `Candidate`; its `oid` field models
    the CPython object identity `id(self)` used by the fallback branch of
    `_generate_id` (distinct live objects have distinct `oid`s).
  - Python `dict` (insertion ordered, in-place value update) is modelled as
    an association list with `dins` / `dget`.
  - Python `set` values are modelled as duplicate-free lists with set-style
    union; the order produced by `list(set(..))` is arbitrary in Python, so
    only the set of elements of such a list is meaningful.
  - Python floats (`similarity_threshold`, the similarity ratio,
    `location_confidence`) are modelled as exact rationals.  All comparisons
    appearing in the source involve small rationals, where IEEE-754 and
    exact comparison agree.
  - `difflib.SequenceMatcher.ratio()` is embedded without the junk/autojunk
    heuristics, which are inert for the short strings compared here
    (autojunk only activates for sequences of length at least 200).
  - A fallible operation (a Python `dict[key]` lookup that can raise
    `KeyError`) is embedded with an `Option` result; `none` models a raised
    exception.
-/

namespace Dedupe

/-- Python truthiness of an optional string: `None` and the empty string are
falsy. -/
def truthyB : Option String → Bool
  | none => false
  | some s => !(s == "")

/-- Truthy value of an optional string: `some s` when `s` is truthy. -/
def tv : Option String → Option String
  | none => none
  | some s => if s == "" then none else some s

/-- Python `str.lower()` (ASCII; all identifiers in play are ASCII). -/
def py_lower (s : String) : String := String.mk (s.toList.map Char.toLower)

/-- Characters stripped by Python `str.strip()` with no argument (ASCII
whitespace). -/
def isPyWS (c : Char) : Bool :=
  c == ' ' || c == '\t' || c == '\n' || c == '\r' || c == '\x0b' || c == '\x0c'

/-- Python `str.strip()` on a character list. -/
def pyStripChars (l : List Char) : List Char :=
  ((l.dropWhile isPyWS).reverse.dropWhile isPyWS).reverse

/-- Python lexicographic `>` on strings (by code point). -/
def pyStrLtChars : List Char → List Char → Bool
  | [], [] => false
  | [], _ :: _ => true
  | _ :: _, [] => false
  | c :: cs, d :: ds =>
    if c.val < d.val then true else if d.val < c.val then false else pyStrLtChars cs ds

def pyStrGt (a b : String) : Bool := pyStrLtChars b.toList a.toList

/-- Python `set(l)` as a duplicate-free list. -/
def py_set (l : List String) : List String := l.dedup

/-- Python `s.update(t)` / set union, as an operation on duplicate-free
lists (existing elements keep their places, new ones are appended). -/
def py_set_union (a b : List String) : List String :=
  a ++ (b.filter (fun s => !(a.contains s))).dedup

/-- Association-list model of a Python `dict`: lookup. -/
def dget {α : Type} : List (String × α) → String → Option α
  | [], _ => none
  | (k', v) :: rest, k => if k' == k then some v else dget rest k

/-- Association-list model of a Python `dict`: `d[k] = v` (update in place
if the key exists, append otherwise; insertion order preserved). -/
def dins {α : Type} : List (String × α) → String → α → List (String × α)
  | [], k, v => [(k, v)]
  | (k', v') :: rest, k, v =>
    if k' == k then (k, v) :: rest else (k', v') :: dins rest k v

/-! ### URL / pattern helpers (the `re` uses of the source) -/

/-- The host part matched at the current position by the tail of the pattern
`https?://(?:www\.)?([^/]+)`: optionally consume a leading `www.` (with
regex backtracking when that leaves the mandatory group empty), then take
the maximal nonempty run of non-`/` characters. -/
def hostAt (l : List Char) : Option (List Char) :=
  let noWww := l.takeWhile (fun c => !(c == '/'))
  if l.take 4 = ['w', 'w', 'w', '.'] then
    let stripped := (l.drop 4).takeWhile (fun c => !(c == '/'))
    if stripped.isEmpty then
      if noWww.isEmpty then none else some noWww
    else some stripped
  else
    if noWww.isEmpty then none else some noWww

/-- Embeds `re.search(r"https?://(?:www\.)?([^/]+)",·)`: scan for the leftmost
position where the whole pattern matches and return group 1. -/
def searchUrlHost : List Char → Option (List Char)
  | [] => none
  | c :: rest =>
    let l := c :: rest
    if l.take 8 = "https://".toList then
      match hostAt (l.drop 8) with
      | some h => some h
      | none => searchUrlHost rest
    else if l.take 7 = "http://".toList then
      match hostAt (l.drop 7) with
      | some h => some h
      | none => searchUrlHost rest
    else searchUrlHost rest

/-- Group 1 of `re.search(r"https?://(?:www\.)?([^/]+)", url)`, as a
string. -/
def url_host (url : String) : Option String :=
  (searchUrlHost url.toList).map (fun l => String.mk l)

/-- Character class `[a-zA-Z0-9_-]` of the LinkedIn pattern. -/
def isLiChar (c : Char) : Bool :=
  c.isAlpha || c.isDigit || c == '_' || c == '-'

/-- Embeds `re.search(r"linkedin\.com/in/([a-zA-Z0-9_-]+)", url, re.I)`: leftmost
case-insensitive occurrence of the literal followed by a nonempty run of
identifier characters; returns the raw (uncased) group 1. -/
def liScan : List Char → Option (List Char)
  | [] => none
  | c :: rest =>
    let l := c :: rest
    if (l.take 16).map Char.toLower = "linkedin.com/in/".toList then
      let run := (l.drop 16).takeWhile isLiChar
      if run.isEmpty then liScan rest else some run
    else liScan rest

/-- Raw group 1 of the LinkedIn pattern. -/
def linkedin_group (url : String) : Option String :=
  (liScan url.toList).map (fun l => String.mk l)

/-- Character class `[a-z0-9]` kept by the name-slug substitution (the name
has already been lowercased). -/
def isSlugKeep (c : Char) : Bool :=
  ('a' ≤ c && c ≤ 'z') || c.isDigit

/-- Embeds `re.sub(r"[^a-z0-9]+", "-", ·)`: each maximal run of excluded
characters becomes a single dash. -/
def slugCore : List Char → List Char
  | [] => []
  | [c] => if isSlugKeep c then [c] else ['-']
  | c :: d :: rest =>
    if isSlugKeep c then c :: slugCore (d :: rest)
    else if isSlugKeep d then '-' :: slugCore (d :: rest)
    else slugCore (d :: rest)

/-- Python `.strip("-")`. -/
def stripDashes (l : List Char) : List Char :=
  ((l.dropWhile (fun c => c == '-')).reverse.dropWhile (fun c => c == '-')).reverse

/-- The slug `re.sub(r"[^a-z0-9]+", "-", name.lower()).strip("-")` of
`Candidate._generate_id`. -/
def name_slug (name : String) : String :=
  String.mk (stripDashes (slugCore (py_lower name).toList))

/-! ### The `Candidate` dataclass -/

/-- An evidence snippet `{text, url, source}` (dataclass field
`evidence_snippets`). -/
structure Evidence where
  text : String
  url : String
  source : String
deriving DecidableEq, Repr

/-- The `Candidate` dataclass of src/utils/dedupe.py.  `oid` models CPython
object identity `id(self)` (used only by the fallback branch of
`_generate_id`); `sources` is a Python `set` modelled as a duplicate-free
list. -/
structure Candidate where
  id : String := ""
  name : Option String := none
  github_username : Option String := none
  hn_username : Option String := none
  reddit_username : Option String := none
  email : Option String := none
  linkedin_url : Option String := none
  twitter_handle : Option String := none
  github_url : Option String := none
  website : Option String := none
  demo_urls : List String := []
  source_urls : List String := []
  bio : Option String := none
  evidence_snippets : List Evidence := []
  location_raw : Option String := none
  country : String := "unknown"
  metro_bucket : String := "UNKNOWN"
  location_confidence : ℚ := 0
  location_evidence_url : Option String := none
  sources : List String := []
  last_activity : Option String := none
  stars_total : Int := 0
  repo_count : Int := 0
  scores : List (String × ℚ) := []
  total_score : ℚ := 0
  recruiter_pitch : Option String := none
  oid : Nat := 0
deriving DecidableEq, Repr

namespace Candidate

/-- Embeds `Candidate._extract_domain` (the static method of the dataclass — no
platform skip list). -/
def extract_domain (url : String) : Option String := url_host url

/-- Tail of `_generate_id` after the handle and website branches. -/
def gen_tail (c : Candidate) : String :=
  match tv c.email with
  | some e => "email:" ++ py_lower e
  | none =>
    match tv c.name with
    | some n => "name:" ++ name_slug n
    | none => "unknown:" ++ toString c.oid

/-- Embeds `Candidate._generate_id`. -/
def generate_id (c : Candidate) : String :=
  match tv c.github_username with
  | some g => "gh:" ++ py_lower g
  | none =>
    match tv c.hn_username with
    | some h => "hn:" ++ py_lower h
    | none =>
      match tv c.reddit_username with
      | some r => "reddit:" ++ py_lower r
      | none =>
        match tv c.website with
        | some w =>
          match tv (extract_domain w) with
          | some dom => "web:" ++ py_lower dom
          | none => gen_tail c
        | none => gen_tail c

/-- Embeds `__post_init__`: generate the id when none was supplied. -/
def make (c : Candidate) : Candidate :=
  if c.id = "" then { c with id := c.generate_id } else c

/-- Single-valued merge rule `if other.x and not self.x: self.x = other.x`. -/
def keep_or (mine theirs : Option String) : Option String :=
  if truthyB theirs && !truthyB mine then theirs else mine

/-- The guard of the location block of `merge_from`. -/
def loc_cond (self other : Candidate) : Bool :=
  truthyB other.location_raw && decide (self.location_confidence < other.location_confidence)

/-- The guard of the bio rule of `merge_from`. -/
def bio_cond (self other : Candidate) : Bool :=
  truthyB other.bio &&
    (!truthyB self.bio ||
      decide ((self.bio.getD "").length < (other.bio.getD "").length))

/-- The guard of the `last_activity` rule of `merge_from`. -/
def la_cond (self other : Candidate) : Bool :=
  truthyB other.last_activity &&
    (!truthyB self.last_activity ||
      pyStrGt (other.last_activity.getD "") (self.last_activity.getD ""))

/-- Embeds `Candidate.merge_from`: merge `other` into `self` and regenerate the
id.  Each field update of the Python method reads only the pre-merge values
of the two records, so the sequential mutations are a single simultaneous
update; the object identity (`oid`) of `self` is unchanged. -/
def merge_from (self other : Candidate) : Candidate :=
  let m : Candidate :=
    { self with
      name := keep_or self.name other.name
      github_username := keep_or self.github_username other.github_username
      hn_username := keep_or self.hn_username other.hn_username
      reddit_username := keep_or self.reddit_username other.reddit_username
      email := keep_or self.email other.email
      linkedin_url := keep_or self.linkedin_url other.linkedin_url
      twitter_handle := keep_or self.twitter_handle other.twitter_handle
      github_url := keep_or self.github_url other.github_url
      website := keep_or self.website other.website
      bio := if bio_cond self other then other.bio else self.bio
      location_raw := if loc_cond self other then other.location_raw else self.location_raw
      country := if loc_cond self other then other.country else self.country
      metro_bucket := if loc_cond self other then other.metro_bucket else self.metro_bucket
      location_confidence :=
        if loc_cond self other then other.location_confidence else self.location_confidence
      location_evidence_url :=
        if loc_cond self other then other.location_evidence_url else self.location_evidence_url
      demo_urls := py_set (self.demo_urls ++ other.demo_urls)
      source_urls := py_set (self.source_urls ++ other.source_urls)
      evidence_snippets := self.evidence_snippets ++ other.evidence_snippets
      sources := py_set_union self.sources other.sources
      stars_total := max self.stars_total other.stars_total
      repo_count := max self.repo_count other.repo_count
      last_activity := if la_cond self other then other.last_activity else self.last_activity }
  { m with id := m.generate_id }

end Candidate

/-! ### difflib.SequenceMatcher.ratio

Embedded without the junk/autojunk machinery, which never activates for the
short name strings compared by `_name_similarity` (autojunk requires the
second sequence to have length at least 200, and no junk predicate is
passed). -/

/-- Length of the matching run ending exactly at positions `i` of `a` and
`j` of `b` (the `j2len` dynamic program of `find_longest_match`). -/
def endLen (a b : List Char) : Nat → Nat → Nat
  | 0, 0 => if a.get? 0 = b.get? 0 && (a.get? 0).isSome then 1 else 0
  | 0, j + 1 => if a.get? 0 = b.get? (j + 1) && (a.get? 0).isSome then 1 else 0
  | i + 1, 0 => if a.get? (i + 1) = b.get? 0 && (a.get? (i + 1)).isSome then 1 else 0
  | i + 1, j + 1 =>
    if a.get? (i + 1) = b.get? (j + 1) && (a.get? (i + 1)).isSome then
      endLen a b i j + 1
    else 0

/-- Embeds `SequenceMatcher.find_longest_match` over the whole sequences: scan
`i` ascending then `j` ascending, keeping the first strictly larger run;
returns `(start in a, start in b, size)`. -/
def flm (a b : List Char) : Nat × Nat × Nat :=
  (List.range a.length).foldl
    (fun best i =>
      (List.range b.length).foldl
        (fun best j =>
          let k := endLen a b i j
          if best.2.2 < k then (i + 1 - k, j + 1 - k, k) else best)
        best)
    (0, 0, 0)

/-- Total matched characters of `get_matching_blocks` (fuelled recursion on
sub-slices; `a.length + 1` units of fuel always suffice because each
nonempty block strictly shrinks the `a`-slice). -/
def totalMatchesF : Nat → List Char → List Char → Nat
  | 0, _, _ => 0
  | fuel + 1, a, b =>
    let t := flm a b
    if t.2.2 = 0 then 0
    else
      totalMatchesF fuel (a.take t.1) (b.take t.2.1) + t.2.2 +
        totalMatchesF fuel (a.drop (t.1 + t.2.2)) (b.drop (t.2.1 + t.2.2))

def totalMatches (a b : List Char) : Nat := totalMatchesF (a.length + 1) a b

/-- Embeds `SequenceMatcher.ratio()` (`2.0 * M / T`, and `1.0` when both sequences
are empty). -/
def seqRatio (a b : List Char) : ℚ :=
  if a.length + b.length = 0 then 1
  else mkRat (2 * (totalMatches a b : Int)) (a.length + b.length)

/-! ### The `CandidateDeduper` class -/

/-- Embeds `CandidateDeduper.__init__` state: the candidate map plus one index per
strong signal type, each a Python dict modelled as an association list. -/
structure CandidateDeduper where
  similarity_threshold : ℚ
  candidates : List (String × Candidate)
  github_index : List (String × String)
  hn_index : List (String × String)
  reddit_index : List (String × String)
  twitter_index : List (String × String)
  linkedin_index : List (String × String)
  domain_index : List (String × String)
  email_index : List (String × String)
deriving DecidableEq, Repr

/-- A fresh deduper with the given similarity threshold. -/
def mkDeduper (thr : ℚ) : CandidateDeduper :=
  ⟨thr, [], [], [], [], [], [], [], []⟩

/-- A fresh deduper with the default threshold `0.85`. -/
def dedup0 : CandidateDeduper := mkDeduper (mkRat 85 100)

namespace CandidateDeduper

/-- Embeds `CandidateDeduper._normalize_linkedin_url`. -/
def normalize_linkedin_url (url : String) : Option String :=
  if url = "" then none else (linkedin_group url).map py_lower

/-- The platform skip list of `CandidateDeduper._extract_domain`. -/
def skip_domains : List String :=
  ["github.com", "twitter.com", "x.com", "linkedin.com",
   "medium.com", "substack.com", "youtube.com"]

/-- Embeds `CandidateDeduper._extract_domain`: host of the URL, lowercased,
filtered against the platform skip list. -/
def extract_domain (url : String) : Option String :=
  if url = "" then none
  else
    match url_host url with
    | none => none
    | some h =>
      let domain := py_lower h
      if domain ∈ skip_domains then none else some domain

/-- Embeds `CandidateDeduper._name_similarity`. -/
def name_similarity (name1 name2 : String) : ℚ :=
  seqRatio (pyStripChars (py_lower name1).toList) (pyStripChars (py_lower name2).toList)

/-- Embeds `CandidateDeduper._has_common_identifier`: the same field type on both
records, equal case-insensitively. -/
def both_lower_eq (x y : Option String) : Bool :=
  truthyB x && truthyB y && (py_lower (x.getD "") == py_lower (y.getD ""))

def has_common_identifier (c1 c2 : Candidate) : Bool :=
  both_lower_eq c1.github_username c2.github_username ||
  both_lower_eq c1.hn_username c2.hn_username ||
  both_lower_eq c1.twitter_handle c2.twitter_handle ||
  both_lower_eq c1.email c2.email ||
  (truthyB c1.linkedin_url && truthyB c2.linkedin_url &&
    match linkedin_group (c1.linkedin_url.getD ""), linkedin_group (c2.linkedin_url.getD "") with
    | some g1, some g2 => py_lower g1 == py_lower g2
    | _, _ => false)

/-- The per-URL domain set `{_extract_domain(u) for u in urls if u}` of
`_likely_same_person`; note that it contains `none` whenever some URL has
no extractable (non-platform) domain. -/
def demo_domains (urls : List String) : List (Option String) :=
  (urls.filter (fun u => !(u == ""))).map extract_domain

/-- The handle set `{h.lower() for h in [gh, hn, twitter] if h}` of
`_likely_same_person`. -/
def handle_set (c : Candidate) : List String :=
  ([c.github_username, c.hn_username, c.twitter_handle].filterMap tv).map py_lower

/-- Embeds `CandidateDeduper._likely_same_person`. -/
def likely_same_person (c1 c2 : Candidate) : Bool :=
  (truthyB c1.website && truthyB c2.website &&
    match extract_domain (c1.website.getD ""), extract_domain (c2.website.getD "") with
    | some d1, some d2 => d1 == d2
    | _, _ => false) ||
  (!c1.demo_urls.isEmpty && !c2.demo_urls.isEmpty &&
    (demo_domains c1.demo_urls).any (fun d => decide (d ∈ demo_domains c2.demo_urls))) ||
  (handle_set c1).any (fun h => decide (h ∈ handle_set c2))

/-! Lookup keys, shared verbatim by `_find_existing` and
`_update_indices`. -/

def k_github (c : Candidate) : Option String := (tv c.github_username).map py_lower
def k_hn (c : Candidate) : Option String := (tv c.hn_username).map py_lower
def k_reddit (c : Candidate) : Option String := (tv c.reddit_username).map py_lower
def k_email (c : Candidate) : Option String := (tv c.email).map py_lower
def k_twitter (c : Candidate) : Option String := (tv c.twitter_handle).map py_lower
def k_linkedin (c : Candidate) : Option String := tv c.linkedin_url >>= normalize_linkedin_url
def k_domain (c : Candidate) : Option String := tv c.website >>= extract_domain

/-- One exact-match probe of `_find_existing`: look the key up when it is
present. -/
def stage (index : List (String × String)) : Option String → Option String
  | none => none
  | some k => dget index k

/-- Left-biased choice (Python early `return`). -/
def po : Option String → Option String → Option String
  | some x, _ => some x
  | none, y => y

/-- The exact-match prefix of `_find_existing`, probed in source order. -/
def strong_hit (d : CandidateDeduper) (c : Candidate) : Option String :=
  po (stage d.github_index (k_github c))
    (po (stage d.hn_index (k_hn c))
      (po (stage d.reddit_index (k_reddit c))
        (po (stage d.email_index (k_email c))
          (po (stage d.twitter_index (k_twitter c))
            (po (stage d.linkedin_index (k_linkedin c))
              (stage d.domain_index (k_domain c)))))))

/-- First name loop of `_find_existing`: similarity above the configured
threshold plus a shared field type; returns the stored `id` field of the
first hit in insertion order. -/
def name_branch1 (d : CandidateDeduper) (c : Candidate) : Option String :=
  match tv c.name with
  | none => none
  | some nm =>
    (d.candidates.find? (fun p =>
      truthyB p.2.name &&
      decide (d.similarity_threshold < name_similarity nm (p.2.name.getD "")) &&
      has_common_identifier c p.2)).map (fun p => p.2.id)

/-- Second name loop of `_find_existing`: name longer than 5, similarity
above `0.9`, and the cross-reference check. -/
def name_branch2 (d : CandidateDeduper) (c : Candidate) : Option String :=
  match tv c.name with
  | none => none
  | some _ =>
    if 5 < (c.name.getD "").length then
      (d.candidates.find? (fun p =>
        truthyB p.2.name &&
        decide (mkRat 9 10 < name_similarity (c.name.getD "") (p.2.name.getD "")) &&
        likely_same_person c p.2)).map (fun p => p.2.id)
    else none

/-- Embeds `CandidateDeduper._find_existing`. -/
def find_existing (d : CandidateDeduper) (c : Candidate) : Option String :=
  po (strong_hit d c) (po (name_branch1 d c) (name_branch2 d c))

/-- Embeds `CandidateDeduper._update_indices`: (re)insert every present signal,
mapping it to the candidate's current id. -/
def update_indices (d : CandidateDeduper) (c : Candidate) : CandidateDeduper :=
  { d with
    github_index :=
      match k_github c with
      | some k => dins d.github_index k c.id
      | none => d.github_index
    hn_index :=
      match k_hn c with
      | some k => dins d.hn_index k c.id
      | none => d.hn_index
    reddit_index :=
      match k_reddit c with
      | some k => dins d.reddit_index k c.id
      | none => d.reddit_index
    twitter_index :=
      match k_twitter c with
      | some k => dins d.twitter_index k c.id
      | none => d.twitter_index
    linkedin_index :=
      match k_linkedin c with
      | some k => dins d.linkedin_index k c.id
      | none => d.linkedin_index
    email_index :=
      match k_email c with
      | some k => dins d.email_index k c.id
      | none => d.email_index
    domain_index :=
      match k_domain c with
      | some k => dins d.domain_index k c.id
      | none => d.domain_index }

/-- The miss branch of `add`: track the record under its current id and
index it. -/
def add_new (d : CandidateDeduper) (c : Candidate) : CandidateDeduper × Candidate :=
  (update_indices { d with candidates := dins d.candidates c.id c } c, c)

/-- Embeds `CandidateDeduper.add`.  `none` models the `KeyError` that
`self.candidates[existing_id]` raises when the match came back with an id
that is no longer a key of the candidate map. -/
def add (d : CandidateDeduper) (c : Candidate) : Option (CandidateDeduper × Candidate) :=
  match find_existing d c with
  | some eid =>
    if eid = "" then some (add_new d c)
    else
      match dget d.candidates eid with
      | none => none
      | some existing =>
        let m := existing.merge_from c
        let d1 : CandidateDeduper := { d with candidates := dins d.candidates eid m }
        some (update_indices d1 m, m)
  | none => some (add_new d c)

/-- Embeds `CandidateDeduper.get_all`. -/
def get_all (d : CandidateDeduper) : List Candidate := d.candidates.map (fun p => p.2)

/-- Embeds `CandidateDeduper.get_count`. -/
def get_count (d : CandidateDeduper) : Nat := d.candidates.length

end CandidateDeduper

/-- Sequential ingestion of a list of records; `none` as soon as an `add`
raises. -/
def addAll (d : CandidateDeduper) : List Candidate → Option CandidateDeduper
  | [] => some d
  | c :: rest =>
    match d.add c with
    | none => none
    | some (d', _) => addAll d' rest

/-! ### `to_dict` / `from_dict` -/

/-- The dictionary produced by `Candidate.to_dict` (every dataclass field;
the `sources` set becomes a list). -/
structure CandidateDict where
  id : String
  name : Option String
  github_username : Option String
  hn_username : Option String
  reddit_username : Option String
  email : Option String
  linkedin_url : Option String
  twitter_handle : Option String
  github_url : Option String
  website : Option String
  demo_urls : List String
  source_urls : List String
  bio : Option String
  evidence_snippets : List Evidence
  location_raw : Option String
  country : String
  metro_bucket : String
  location_confidence : ℚ
  location_evidence_url : Option String
  sources : List String
  last_activity : Option String
  stars_total : Int
  repo_count : Int
  scores : List (String × ℚ)
  total_score : ℚ
  recruiter_pitch : Option String
deriving DecidableEq, Repr

/-- Embeds `Candidate.to_dict`. -/
def Candidate.to_dict (c : Candidate) : CandidateDict :=
  { id := c.id, name := c.name, github_username := c.github_username,
    hn_username := c.hn_username, reddit_username := c.reddit_username,
    email := c.email, linkedin_url := c.linkedin_url,
    twitter_handle := c.twitter_handle, github_url := c.github_url,
    website := c.website, demo_urls := c.demo_urls,
    source_urls := c.source_urls, bio := c.bio,
    evidence_snippets := c.evidence_snippets, location_raw := c.location_raw,
    country := c.country, metro_bucket := c.metro_bucket,
    location_confidence := c.location_confidence,
    location_evidence_url := c.location_evidence_url,
    sources := c.sources, last_activity := c.last_activity,
    stars_total := c.stars_total, repo_count := c.repo_count,
    scores := c.scores, total_score := c.total_score,
    recruiter_pitch := c.recruiter_pitch }

/-- Embeds `Candidate.from_dict`: rebuild the `sources` set and construct (running
`__post_init__`); `oid` is the identity of the freshly constructed
object. -/
def Candidate.from_dict (data : CandidateDict) (oid : Nat) : Candidate :=
  Candidate.make
    { id := data.id, name := data.name, github_username := data.github_username,
      hn_username := data.hn_username, reddit_username := data.reddit_username,
      email := data.email, linkedin_url := data.linkedin_url,
      twitter_handle := data.twitter_handle, github_url := data.github_url,
      website := data.website, demo_urls := data.demo_urls,
      source_urls := data.source_urls, bio := data.bio,
      evidence_snippets := data.evidence_snippets, location_raw := data.location_raw,
      country := data.country, metro_bucket := data.metro_bucket,
      location_confidence := data.location_confidence,
      location_evidence_url := data.location_evidence_url,
      sources := py_set data.sources, last_activity := data.last_activity,
      stars_total := data.stars_total, repo_count := data.repo_count,
      scores := data.scores, total_score := data.total_score,
      recruiter_pitch := data.recruiter_pitch, oid := oid }

/-! ### Distinguished values used by the concrete scenarios

Each record is built through `Candidate.make` (the `__post_init__` id
generation); `oid`s are chosen pairwise distinct, as CPython guarantees for
simultaneously live objects. -/

/-- The five location fields that `merge_from` treats as a unit. -/
def loc_fields (c : Candidate) :
    Option String × String × String × ℚ × Option String :=
  (c.location_raw, c.country, c.metro_bucket, c.location_confidence,
   c.location_evidence_url)

/-- A record carries a signal admitted to some strong-signal index exactly
when one of the seven index keys is derivable from it. -/
def has_indexable_signal (c : Candidate) : Bool :=
  (CandidateDeduper.k_github c).isSome || (CandidateDeduper.k_hn c).isSome ||
  (CandidateDeduper.k_reddit c).isSome || (CandidateDeduper.k_email c).isSome ||
  (CandidateDeduper.k_twitter c).isSome || (CandidateDeduper.k_linkedin c).isSome ||
  (CandidateDeduper.k_domain c).isSome

def c1a : Candidate := Candidate.make { hn_username := some "h", oid := 11 }
def c1b : Candidate :=
  Candidate.make { github_username := some "g", hn_username := some "h", oid := 12 }
def c1c : Candidate := Candidate.make { github_username := some "g", oid := 13 }

def c2r1 : Candidate :=
  Candidate.make { name := some "Alex Kim", github_username := some "alexk",
                   website := some "alexkim.dev", oid := 21 }
def c2r2 : Candidate :=
  Candidate.make { name := some "Alex Kim", website := some "alexkim.dev", oid := 22 }
def c2s1 : Candidate :=
  Candidate.make { name := some "Alex Kim", github_username := some "alexk",
                   website := some "https://alexkim.dev", oid := 23 }
def c2s2 : Candidate :=
  Candidate.make { name := some "Alex Kim", website := some "https://alexkim.dev", oid := 24 }

def c3cex : Candidate :=
  Candidate.make { email := some "a@b.c", website := some "https://alexkim.dev", oid := 31 }
def c3wit : Candidate := Candidate.make { github_username := some "AlexK", oid := 32 }

def c4a : Candidate := Candidate.make { website := some "https://github.com/a", oid := 41 }
def c4b : Candidate := Candidate.make { website := some "https://github.com/b", oid := 42 }
def c4w : Candidate := Candidate.make { github_username := some "g", oid := 43 }

def c5e : Candidate :=
  Candidate.make { name := some "Alex Kim", github_username := some "g1",
                   demo_urls := ["https://github.com/a"], oid := 51 }
def c5c : Candidate :=
  Candidate.make { name := some "Alex Kim", github_username := some "g2",
                   demo_urls := ["https://github.com/b"], oid := 52 }
def c5state : CandidateDeduper := (CandidateDeduper.add_new dedup0 c5e).1
def c5n1 : Candidate :=
  Candidate.make { name := some "Alex Kim", github_username := some "g1", oid := 53 }
def c5n2 : Candidate :=
  Candidate.make { name := some "Alex Kim", github_username := some "g2", oid := 54 }

def c6r1 : Candidate :=
  Candidate.make { github_username := some "g1", website := some "https://reddit.com/r/a",
                   oid := 61 }
def c6r2 : Candidate :=
  Candidate.make { github_username := some "g2", website := some "https://reddit.com/r/b",
                   oid := 62 }
def c6m1 : Candidate :=
  Candidate.make { github_username := some "g1", website := some "https://medium.com/@a",
                   oid := 63 }
def c6m2 : Candidate :=
  Candidate.make { github_username := some "g2", website := some "https://medium.com/@b",
                   oid := 64 }

def c7a : Candidate :=
  Candidate.make { name := some "A", location_raw := some "SF",
                   country := "US", metro_bucket := "SF_BAY_AREA",
                   location_confidence := mkRat 1 2,
                   location_evidence_url := some "https://a.dev", oid := 71 }
def c7b : Candidate :=
  Candidate.make { name := some "A", location_raw := some "NYC",
                   country := "US", metro_bucket := "OTHER_US",
                   location_confidence := mkRat 1 2,
                   location_evidence_url := some "https://b.dev", oid := 72 }

def c8a50 : Candidate := Candidate.make { stars_total := 50, oid := 81 }
def c8b10 : Candidate := Candidate.make { stars_total := 10, oid := 82 }
def c8b80 : Candidate := Candidate.make { stars_total := 80, oid := 83 }

def c9cex1 : Candidate := Candidate.make { website := some "alexkim.dev", oid := 91 }
def c9cex2 : Candidate := Candidate.make { website := some "alexkim.dev", oid := 92 }
def c9w : Candidate := Candidate.make { github_username := some "alexk", oid := 93 }

def c10t : Candidate :=
  Candidate.make { name := some "Alex Kim", email := some "A@b.c",
                   sources := ["github", "hn"], demo_urls := ["https://x.dev"],
                   evidence_snippets := [⟨"t", "u", "s"⟩], scores := [("a", mkRat 3 2)],
                   location_confidence := mkRat 1 2, stars_total := 50, oid := 101 }

/-! ### Helper lemmas -/

theorem tv_eq_some {o : Option String} {s : String} (h : tv o = some s) :
    o = some s ∧ s ≠ "" := by
  cases o with
  | none => simp [tv] at h
  | some t =>
    simp only [tv] at h
    by_cases ht : t == ""
    · simp [ht] at h
    · simp [ht] at h
      subst h
      exact ⟨rfl, by simpa using ht⟩

theorem truthyB_of_tv_eq_some {o : Option String} {s : String} (h : tv o = some s) :
    truthyB o = true := by
  obtain ⟨ho, hs⟩ := tv_eq_some h
  subst ho
  simp [truthyB, hs]

theorem dins_length_le {α : Type} (l : List (String × α)) (k : String) (v : α) :
    l.length ≤ (dins l k v).length := by
  induction l with
  | nil => simp [dins]
  | cons p rest ih =>
    obtain ⟨k', v'⟩ := p
    by_cases h : k' == k
    · simp [dins, h]
    · simp only [dins, h, if_neg]
      simpa using ih

theorem dins_keys_subset {α : Type} (l : List (String × α)) (k : String) (v : α) :
    l.map Prod.fst ⊆ (dins l k v).map Prod.fst := by
  induction l with
  | nil => simp
  | cons p rest ih =>
    obtain ⟨k', v'⟩ := p
    by_cases h : k' == k
    · have hk : k' = k := by simpa using h
      subst hk
      simp [dins]
    · have hstep : dins ((k', v') :: rest) k v = (k', v') :: dins rest k v := by
        simp [dins, h]
      rw [hstep]
      intro x hx
      simp only [List.map_cons, List.mem_cons] at hx ⊢
      rcases hx with hx | hx
      · exact Or.inl hx
      · exact Or.inr (ih hx)

theorem dget_dins_self {α : Type} (l : List (String × α)) (k : String) (v : α) :
    dget (dins l k v) k = some v := by
  induction l with
  | nil => simp [dins, dget]
  | cons p rest ih =>
    obtain ⟨k', v'⟩ := p
    by_cases h : k' == k
    · simp [dins, h, dget]
    · simp [dins, h, dget, ih]

theorem dins_self_length {α : Type} (l : List (String × α)) (k : String) (v v' : α)
    (h : dget l k = some v') : (dins l k v).length = l.length := by
  induction l with
  | nil => simp [dget] at h
  | cons p rest ih =>
    obtain ⟨k', w⟩ := p
    by_cases hk : k' == k
    · simp [dins, hk]
    · simp only [dget, hk, if_neg] at h
      simp [dins, hk, ih h]

theorem py_set_append_toFinset (l1 l2 : List String) :
    (py_set (l1 ++ l2)).toFinset = l1.toFinset ∪ l2.toFinset := by
  ext x
  simp [py_set, List.mem_dedup, List.mem_append]

theorem py_set_union_toFinset (l1 l2 : List String) :
    (py_set_union l1 l2).toFinset = l1.toFinset ∪ l2.toFinset := by
  ext x
  simp only [py_set_union, List.mem_toFinset, List.mem_append, List.mem_dedup,
    List.mem_filter, Finset.mem_union, Bool.not_eq_true']
  constructor
  · rintro (hx | ⟨hx, _⟩)
    · exact Or.inl hx
    · exact Or.inr hx
  · rintro (hx | hx)
    · exact Or.inl hx
    · by_cases ha : x ∈ l1
      · exact Or.inl ha
      · refine Or.inr ⟨hx, ?_⟩
        simpa using ha

theorem truthyB_iff {o : Option String} :
    truthyB o = true ↔ ∃ s, o = some s ∧ s ≠ "" := by
  cases o with
  | none => simp [truthyB]
  | some s => simp [truthyB]

theorem stage_nil (k : Option String) : CandidateDeduper.stage [] k = none := by
  cases k <;> rfl

theorem po_none (y : Option String) : CandidateDeduper.po none y = y := rfl

theorem po_some (x : String) (y : Option String) :
    CandidateDeduper.po (some x) y = some x := rfl

/-- After `_update_indices(c)`, every index key derivable from `c` resolves
to `c.id`, so the exact-match prefix of `_find_existing` returns `c.id`
whenever `c` carries any indexable signal. -/
theorem strong_hit_update (d : CandidateDeduper) (c : Candidate)
    (h : has_indexable_signal c = true) :
    CandidateDeduper.strong_hit (CandidateDeduper.update_indices d c) c = some c.id := by
  simp only [CandidateDeduper.strong_hit, CandidateDeduper.update_indices]
  cases hg : CandidateDeduper.k_github c with
  | some k => simp [hg, CandidateDeduper.stage, dget_dins_self, po_some]
  | none =>
  cases hh : CandidateDeduper.k_hn c with
  | some k => simp [hg, hh, CandidateDeduper.stage, stage_nil, dget_dins_self, po_some, po_none]
  | none =>
  cases hr : CandidateDeduper.k_reddit c with
  | some k =>
    simp [hg, hh, hr, CandidateDeduper.stage, stage_nil, dget_dins_self, po_some, po_none]
  | none =>
  cases he : CandidateDeduper.k_email c with
  | some k =>
    simp [hg, hh, hr, he, CandidateDeduper.stage, stage_nil, dget_dins_self, po_some, po_none]
  | none =>
  cases ht : CandidateDeduper.k_twitter c with
  | some k =>
    simp [hg, hh, hr, he, ht, CandidateDeduper.stage, stage_nil, dget_dins_self, po_some,
      po_none]
  | none =>
  cases hl : CandidateDeduper.k_linkedin c with
  | some k =>
    simp [hg, hh, hr, he, ht, hl, CandidateDeduper.stage, stage_nil, dget_dins_self, po_some,
      po_none]
  | none =>
  cases hw : CandidateDeduper.k_domain c with
  | some k =>
    simp [hg, hh, hr, he, ht, hl, hw, CandidateDeduper.stage, stage_nil, dget_dins_self,
      po_some, po_none]
  | none =>
    rw [has_indexable_signal, hg, hh, hr, he, ht, hl, hw] at h
    simp at h

/-- On a fresh engine `_find_existing` always misses. -/
theorem find_existing_empty (thr : ℚ) (c : Candidate) :
    CandidateDeduper.find_existing (mkDeduper thr) c = none := by
  unfold CandidateDeduper.find_existing CandidateDeduper.strong_hit
    CandidateDeduper.name_branch1 CandidateDeduper.name_branch2
  cases tv c.name <;>
    simp [mkDeduper, stage_nil, po_none, CandidateDeduper.po, List.find?]

theorem generate_id_set_id (c : Candidate) (v : String) :
    Candidate.generate_id { c with id := v } = c.generate_id := by
  cases c
  rfl

theorem update_indices_candidates (d : CandidateDeduper) (c : Candidate) :
    (CandidateDeduper.update_indices d c).candidates = d.candidates := rfl

/-- The candidate map after a successful `add`: either some stored entry
was merged in place, or the record was appended (or overwrote the entry at
its own id). -/
theorem add_candidates_cases (d : CandidateDeduper) (c : Candidate)
    (d' : CandidateDeduper) (e : Candidate) (h : d.add c = some (d', e)) :
    (∃ k m, dget d.candidates k = some m ∧
      d'.candidates = dins d.candidates k (m.merge_from c)) ∨
    d'.candidates = dins d.candidates c.id c := by
  unfold CandidateDeduper.add at h
  split at h
  next eid heq =>
    split at h
    next =>
      refine Or.inr ?_
      injection h with hp
      injection hp with hd he
      rw [← hd]
      rfl
    next hne =>
      split at h
      next => exact Option.noConfusion h
      next ex hg =>
        refine Or.inl ⟨eid, ex, hg, ?_⟩
        injection h with hp
        injection hp with hd he
        rw [← hd]
        rfl
  next heq =>
    refine Or.inr ?_
    injection h with hp
    injection hp with hd he
    rw [← hd]
    rfl

/-! ### Claim theorems -/

end Dedupe

open Dedupe

/-- C7 (confirmed): in every merge the five location fields (raw string,
country bucket, metro bucket, confidence, evidence URL) move as a unit —
the merged record carries either exactly the existing group or exactly the
incoming group; when the incoming confidence does not strictly exceed the
stored one the group is unchanged; and any change implies the incoming
confidence was strictly greater. -/
theorem C7_location_atomic (a b : Candidate) :
    (loc_fields (a.merge_from b) = loc_fields a ∨
      loc_fields (a.merge_from b) = loc_fields b) ∧
    (b.location_confidence ≤ a.location_confidence →
      loc_fields (a.merge_from b) = loc_fields a) ∧
    (loc_fields (a.merge_from b) ≠ loc_fields a →
      a.location_confidence < b.location_confidence) := by
  cases hc : Candidate.loc_cond a b
  · refine ⟨Or.inl ?_, fun _ => ?_, fun h => ?_⟩
    · simp [Candidate.merge_from, loc_fields, hc]
    · simp [Candidate.merge_from, loc_fields, hc]
    · exact absurd (by simp [Candidate.merge_from, loc_fields, hc]) h
  · have hlt : a.location_confidence < b.location_confidence := by
      have := hc
      simp only [Candidate.loc_cond, Bool.and_eq_true, decide_eq_true_eq] at this
      exact this.2
    refine ⟨Or.inr ?_, fun hle => absurd hlt (not_lt.mpr hle), fun _ => hlt⟩
    simp [Candidate.merge_from, loc_fields, hc]

/-- C7 witness: merging a record whose location confidence equals the
stored confidence leaves the location group untouched. -/
theorem C7_location_atomic_witness :
    loc_fields (c7a.merge_from c7b) = loc_fields c7a :=
  (C7_location_atomic c7a c7b).2.1 (le_of_eq (by rfl))

/-- C8 (confirmed): merged set-like fields (demo URLs, source URLs,
source-name tags) are the set unions of the two records' values, numeric
counters (stars, repo count) are the maxima and hence never decrease, and
in particular merging stars 50 with 10 leaves 50 while merging 50 with 80
yields 80. -/
theorem C8_merge_union_max :
    (∀ a b : Candidate,
      (a.merge_from b).demo_urls.toFinset = a.demo_urls.toFinset ∪ b.demo_urls.toFinset ∧
      (a.merge_from b).source_urls.toFinset =
        a.source_urls.toFinset ∪ b.source_urls.toFinset ∧
      (a.merge_from b).sources.toFinset = a.sources.toFinset ∪ b.sources.toFinset ∧
      (a.merge_from b).stars_total = max a.stars_total b.stars_total ∧
      (a.merge_from b).repo_count = max a.repo_count b.repo_count ∧
      a.stars_total ≤ (a.merge_from b).stars_total ∧
      b.stars_total ≤ (a.merge_from b).stars_total ∧
      a.repo_count ≤ (a.merge_from b).repo_count ∧
      b.repo_count ≤ (a.merge_from b).repo_count) ∧
    (c8a50.merge_from c8b10).stars_total = 50 ∧
    (c8a50.merge_from c8b80).stars_total = 80 := by
  refine ⟨fun a b => ?_, rfl, rfl⟩
  have hd : (a.merge_from b).demo_urls = py_set (a.demo_urls ++ b.demo_urls) := rfl
  have hs : (a.merge_from b).source_urls = py_set (a.source_urls ++ b.source_urls) := rfl
  have hx : (a.merge_from b).sources = py_set_union a.sources b.sources := rfl
  have h1 : (a.merge_from b).stars_total = max a.stars_total b.stars_total := rfl
  have h2 : (a.merge_from b).repo_count = max a.repo_count b.repo_count := rfl
  refine ⟨?_, ?_, ?_, h1, h2, ?_, ?_, ?_, ?_⟩
  · rw [hd, py_set_append_toFinset]
  · rw [hs, py_set_append_toFinset]
  · rw [hx, py_set_union_toFinset]
  · rw [h1]; exact le_max_left _ _
  · rw [h1]; exact le_max_right _ _
  · rw [h2]; exact le_max_left _ _
  · rw [h2]; exact le_max_right _ _

/-- C10 (confirmed): the serialization round trip restores every field of
a candidate — `to_dict` emits every field and `from_dict` turns the
serialized sources list back into the set — so for any candidate with a
generated (nonempty) id and duplicate-free sources the round trip is the
identity up to the fresh object identity. -/
theorem C10_roundtrip (c : Candidate) (oid2 : Nat) (hid : c.id ≠ "")
    (hnd : c.sources.Nodup) :
    Candidate.from_dict c.to_dict oid2 = { c with oid := oid2 } := by
  cases c with
  | mk id name gh hn rd em li tw gu ws du su bio ev lr co mb lc le so la st rc sc ts rp oid =>
    simp only [Candidate.from_dict, Candidate.to_dict, Candidate.make, py_set] at *
    simp [hid, List.dedup_eq_self.mpr hnd]

/-- C10 witness: the round trip at a concrete fully populated candidate. -/
theorem C10_roundtrip_witness :
    Candidate.from_dict c10t.to_dict 999 = { c10t with oid := 999 } :=
  C10_roundtrip c10t 999 (by decide) (by decide)

/-- C1 (code_bug): `add` is not total.  After ingesting a record known only
by forum handle `h` and then a record with code-host handle `g` and the
same forum handle, the merge regenerates the stored entity's id to `gh:g`
while the entity stays stored under the old key `hn:h` and the indices now
point at `gh:g`; a third record with handle `g` then hits the index and the
lookup `self.candidates["gh:g"]` raises `KeyError` (modelled by `none`),
although the first two adds succeed. -/
theorem C1_add_raises_on_stale_id :
    (addAll dedup0 [c1a, c1b]).isSome = true ∧
    (addAll dedup0 [c1a, c1b]).map
      (fun d => (d.candidates.map Prod.fst, d.github_index)) =
      some (["hn:h"], [("g", "gh:g")]) ∧
    addAll dedup0 [c1a, c1b, c1c] = none :=
  ⟨rfl, rfl, rfl⟩

/-- C2 counterexample: with the records exactly as written in the claim —
website field the bare string `alexkim.dev` with no scheme — the domain
extractor (which requires an `http(s)://` prefix) yields nothing, no
signal links the two records, and after both adds the engine tracks two
entities, not one. -/
theorem C2_counterexample :
    c2r1.website = some "alexkim.dev" ∧ c2r2.website = some "alexkim.dev" ∧
    (addAll dedup0 [c2r1, c2r2]).map CandidateDeduper.get_count = some 2 :=
  ⟨rfl, rfl, rfl⟩

/-- C2 amended: the end-to-end scenario holds once the website is a URL
with a scheme, `https://alexkim.dev`: the second record hits the website
domain index, the records merge, the count is 1, and the merged entity
keeps github handle `alexk` and website `https://alexkim.dev`. -/
theorem C2_amended_scenario :
    (addAll dedup0 [c2s1, c2s2]).map
      (fun d => (d.get_count, d.get_all.map (fun c => (c.github_username, c.website)))) =
      some (1, [(some "alexk", some "https://alexkim.dev")]) :=
  rfl

/-- C3 counterexample: a candidate with both a (claim-higher-priority)
email and a website gets the website-derived id — `_generate_id` checks
the website domain before the email, contradicting the claimed priority
order. -/
theorem C3_counterexample :
    tv c3cex.email = some "a@b.c" ∧ tv c3cex.website = some "https://alexkim.dev" ∧
    c3cex.id = "web:alexkim.dev" ∧ c3cex.id ≠ "email:" ++ py_lower "a@b.c" :=
  ⟨rfl, rfl, rfl, by decide⟩

/-- C3 amended: the generated id follows the priority order code-host
handle, then HN handle, then Reddit handle, then normalized website
domain, then email, then slugged name, with the object-identity fallback
when all are empty; and the id is recomputed from the merged fields after
every merge. -/
theorem C3_amended_priority :
    (∀ (c : Candidate) (g : String), tv c.github_username = some g →
      c.generate_id = "gh:" ++ py_lower g) ∧
    (∀ (c : Candidate) (h : String), tv c.github_username = none →
      tv c.hn_username = some h → c.generate_id = "hn:" ++ py_lower h) ∧
    (∀ (c : Candidate) (r : String), tv c.github_username = none →
      tv c.hn_username = none → tv c.reddit_username = some r →
      c.generate_id = "reddit:" ++ py_lower r) ∧
    (∀ (c : Candidate) (w dom : String), tv c.github_username = none →
      tv c.hn_username = none → tv c.reddit_username = none →
      tv c.website = some w → tv (Candidate.extract_domain w) = some dom →
      c.generate_id = "web:" ++ py_lower dom) ∧
    (∀ (c : Candidate) (e : String), tv c.github_username = none →
      tv c.hn_username = none → tv c.reddit_username = none →
      ((tv c.website).bind (fun w => tv (Candidate.extract_domain w))) = none →
      tv c.email = some e → c.generate_id = "email:" ++ py_lower e) ∧
    (∀ (c : Candidate) (n : String), tv c.github_username = none →
      tv c.hn_username = none → tv c.reddit_username = none →
      ((tv c.website).bind (fun w => tv (Candidate.extract_domain w))) = none →
      tv c.email = none → tv c.name = some n →
      c.generate_id = "name:" ++ name_slug n) ∧
    (∀ c : Candidate, tv c.github_username = none → tv c.hn_username = none →
      tv c.reddit_username = none →
      ((tv c.website).bind (fun w => tv (Candidate.extract_domain w))) = none →
      tv c.email = none → tv c.name = none →
      c.generate_id = "unknown:" ++ toString c.oid) ∧
    (∀ a b : Candidate, (a.merge_from b).id = (a.merge_from b).generate_id) := by
  have hweb : ∀ (c : Candidate),
      ((tv c.website).bind (fun w => tv (Candidate.extract_domain w))) = none →
      tv c.github_username = none → tv c.hn_username = none →
      tv c.reddit_username = none → c.generate_id = c.gen_tail := by
    intro c hw h1 h2 h3
    cases hcw : tv c.website with
    | none => simp [Candidate.generate_id, h1, h2, h3, hcw]
    | some w =>
      rw [hcw] at hw
      simp only [Option.some_bind] at hw
      simp [Candidate.generate_id, h1, h2, h3, hcw, hw]
  refine ⟨?_, ?_, ?_, ?_, ?_, ?_, ?_, ?_⟩
  · intro c g h1
    simp [Candidate.generate_id, h1]
  · intro c h h1 h2
    simp [Candidate.generate_id, h1, h2]
  · intro c r h1 h2 h3
    simp [Candidate.generate_id, h1, h2, h3]
  · intro c w dom h1 h2 h3 h4 h5
    simp [Candidate.generate_id, h1, h2, h3, h4, h5]
  · intro c e h1 h2 h3 h4 h5
    rw [hweb c h4 h1 h2 h3]
    simp [Candidate.gen_tail, h5]
  · intro c n h1 h2 h3 h4 h5 h6
    rw [hweb c h4 h1 h2 h3]
    simp [Candidate.gen_tail, h5, h6]
  · intro c h1 h2 h3 h4 h5 h6
    rw [hweb c h4 h1 h2 h3]
    simp [Candidate.gen_tail, h5, h6]
  · intro a b
    rfl

/-- C3 amended witness: the highest-priority branch at a concrete record
with a code-host handle. -/
theorem C3_amended_priority_witness :
    c3wit.generate_id = "gh:" ++ py_lower "AlexK" :=
  C3_amended_priority.1 c3wit "AlexK" rfl

/-- C4 counterexample: two distinct records whose generated ids coincide
(`web:github.com`, since the dataclass-level domain extractor has no
platform filter while the engine-level one refuses `github.com`, so
neither record is index-matched): the second add does not merge, yet its
`candidates[id] = candidate` assignment displaces the first entity, whose
website value no longer appears in `get_all`. -/
theorem C4_counterexample :
    c4a.id = "web:github.com" ∧ c4b.id = "web:github.com" ∧ c4a ≠ c4b ∧
    (addAll dedup0 [c4a]).map (fun d => d.get_all.map (fun c => c.website)) =
      some [some "https://github.com/a"] ∧
    (addAll dedup0 [c4a, c4b]).map
      (fun d => (d.get_count, d.get_all.map (fun c => c.website))) =
      some (1, [some "https://github.com/b"]) :=
  ⟨rfl, rfl, by decide, rfl, rfl⟩

/-- C4 amended: the candidate map is grow-only in its key set and the
entity count never decreases across a successful `add`; but an entity is
not immune to replacement — a later non-matching record whose generated id
equals an existing storage key overwrites that entry, so value-level
persistence of `get_all` members does not hold. -/
theorem C4_amended_monotone (d : CandidateDeduper) (c : Candidate)
    (d' : CandidateDeduper) (e : Candidate) (h : d.add c = some (d', e)) :
    d.candidates.map Prod.fst ⊆ d'.candidates.map Prod.fst ∧
    d.get_count ≤ d'.get_count := by
  rcases add_candidates_cases d c d' e h with ⟨k, m, _, hc⟩ | hc <;>
    rw [CandidateDeduper.get_count, CandidateDeduper.get_count, hc] <;>
    exact ⟨dins_keys_subset _ _ _, dins_length_le _ _ _⟩

/-- C4 amended witness: one concrete successful `add` into the fresh
engine. -/
theorem C4_amended_monotone_witness :
    dedup0.candidates.map Prod.fst ⊆
      (CandidateDeduper.add_new dedup0 c4w).1.candidates.map Prod.fst ∧
    dedup0.get_count ≤ (CandidateDeduper.add_new dedup0 c4w).1.get_count :=
  C4_amended_monotone dedup0 c4w (CandidateDeduper.add_new dedup0 c4w).1
    (CandidateDeduper.add_new dedup0 c4w).2 rfl

/-- C5 counterexample: two records with identical display name, distinct
code-host handles, and demo URLs that are both platform links with no
extractable domain share no handle, no website domain, and no demo-URL
domain — the per-record domain sets are both `[none]` — yet the engine
merges them into one entity, because the overlap check of
`_likely_same_person` counts the shared `None` marker as an overlap.  The
claim requires that with no corroborating signal no merge occurs and two
entities are tracked. -/
theorem C5_counterexample :
    CandidateDeduper.has_common_identifier c5c c5e = false ∧
    CandidateDeduper.demo_domains c5c.demo_urls = [none] ∧
    CandidateDeduper.demo_domains c5e.demo_urls = [none] ∧
    (CandidateDeduper.handle_set c5c).any
      (fun h => decide (h ∈ CandidateDeduper.handle_set c5e)) = false ∧
    c5c.website = none ∧ c5e.website = none ∧
    (addAll dedup0 [c5e, c5c]).map CandidateDeduper.get_count = some 1 :=
  ⟨rfl, rfl, rfl, rfl, rfl, rfl, rfl⟩

/-- C5 amended: when the strong-signal probes all miss, a fuzzy match of an
incoming record is returned only for a stored entity such that both
display names are nonempty and either (a) the name-similarity ratio
strictly exceeds the configured threshold and the two records share a
strong identity field of the same type case-insensitively, or (b) the
incoming raw name is longer than 5 characters, the ratio strictly exceeds
0.9, and the cross-reference check `_likely_same_person` is positive —
where that check also counts two demo URLs without extractable domains as
an overlap.  With identical names but no corroborating signal of either
kind, no merge occurs and two entities are tracked. -/
theorem C5_amended_fuzzy :
    (∀ (d : CandidateDeduper) (c : Candidate) (eid : String),
      CandidateDeduper.strong_hit d c = none →
      CandidateDeduper.find_existing d c = some eid →
      ∃ p ∈ d.candidates, p.2.id = eid ∧
        ∃ nm en, c.name = some nm ∧ nm ≠ "" ∧ p.2.name = some en ∧ en ≠ "" ∧
          ((d.similarity_threshold < CandidateDeduper.name_similarity nm en ∧
            CandidateDeduper.has_common_identifier c p.2 = true) ∨
           (5 < nm.length ∧
            mkRat 9 10 < CandidateDeduper.name_similarity nm en ∧
            CandidateDeduper.likely_same_person c p.2 = true))) ∧
    (addAll dedup0 [c5n1, c5n2]).map CandidateDeduper.get_count = some 2 := by
  constructor
  · intro d c eid hsh hfe
    unfold CandidateDeduper.find_existing at hfe
    rw [hsh, po_none] at hfe
    cases hb1 : CandidateDeduper.name_branch1 d c with
    | some x =>
      rw [hb1, po_some] at hfe
      have hx : x = eid := Option.some.inj hfe
      subst hx
      unfold CandidateDeduper.name_branch1 at hb1
      cases htv : tv c.name with
      | none => rw [htv] at hb1; exact Option.noConfusion hb1
      | some nm =>
        rw [htv] at hb1
        rw [Option.map_eq_some'] at hb1
        obtain ⟨p, hfind, hpx⟩ := hb1
        have hmem := List.mem_of_find?_eq_some hfind
        have hpred := List.find?_some hfind
        simp only [Bool.and_eq_true, decide_eq_true_eq] at hpred
        obtain ⟨⟨hen, hsim⟩, hcom⟩ := hpred
        obtain ⟨hcn, hnm⟩ := tv_eq_some htv
        obtain ⟨en, hpen, hene⟩ := truthyB_iff.mp hen
        refine ⟨p, hmem, hpx, nm, en, hcn, hnm, hpen, hene, Or.inl ⟨?_, hcom⟩⟩
        rw [hpen] at hsim
        exact hsim
    | none =>
      rw [hb1, po_none] at hfe
      unfold CandidateDeduper.name_branch2 at hfe
      cases htv : tv c.name with
      | none => rw [htv] at hfe; exact Option.noConfusion hfe
      | some nm0 =>
        rw [htv] at hfe
        obtain ⟨hcn, hnm⟩ := tv_eq_some htv
        split at hfe
        next => exact Option.noConfusion hfe
        next =>
          split at hfe
          next hlen =>
            rw [Option.map_eq_some'] at hfe
            obtain ⟨p, hfind, hpx⟩ := hfe
            have hmem := List.mem_of_find?_eq_some hfind
            have hpred := List.find?_some hfind
            simp only [Bool.and_eq_true, decide_eq_true_eq] at hpred
            obtain ⟨⟨hen, hsim⟩, hlsp⟩ := hpred
            obtain ⟨en, hpen, hene⟩ := truthyB_iff.mp hen
            refine ⟨p, hmem, hpx, nm0, en, hcn, hnm, hpen, hene, Or.inr ⟨?_, ?_, hlsp⟩⟩
            · rw [hcn] at hlen
              exact hlen
            · rw [hcn, hpen] at hsim
              exact hsim
          next => exact Option.noConfusion hfe
  · rfl

/-- C5 witness: the amended characterization applied to the engine holding
the first demo-URL record, probed with the second one; the match is the
0.9-branch with the spurious `none`-domain overlap. -/
theorem C5_amended_fuzzy_witness :
    ∃ p ∈ c5state.candidates, p.2.id = "gh:g1" ∧
      ∃ nm en, c5c.name = some nm ∧ nm ≠ "" ∧ p.2.name = some en ∧ en ≠ "" ∧
        ((c5state.similarity_threshold < CandidateDeduper.name_similarity nm en ∧
          CandidateDeduper.has_common_identifier c5c p.2 = true) ∨
         (5 < nm.length ∧
          mkRat 9 10 < CandidateDeduper.name_similarity nm en ∧
          CandidateDeduper.likely_same_person c5c p.2 = true)) :=
  C5_amended_fuzzy.1 c5state c5c "gh:g1" rfl rfl

/-- C6 counterexample: `reddit.com` — the domain of a forum platform used
as a standalone identity signal — is not in the skip list, so the website
normalization returns it as a domain, it is admitted into the website
index, and two records with different code-host handles but reddit-hosted
websites merge on that shared platform domain alone. -/
theorem C6_counterexample :
    url_host "https://reddit.com/r/a" = some "reddit.com" ∧
    CandidateDeduper.extract_domain "https://reddit.com/r/a" = some "reddit.com" ∧
    c6r1.github_username = some "g1" ∧ c6r2.github_username = some "g2" ∧
    (addAll dedup0 [c6r1, c6r2]).map CandidateDeduper.get_count = some 1 :=
  ⟨rfl, rfl, rfl, rfl, rfl⟩

/-- C6 amended: the website-domain normalization rejects exactly the seven
listed platform hosts (`github.com`, `twitter.com`, `x.com`,
`linkedin.com`, `medium.com`, `substack.com`, `youtube.com`) — any URL
whose extracted host lowercases into that list yields no domain — and two
records with different code-host handles and websites on such a platform
are not merged on that basis: both stay tracked and the domain index stays
empty.  Forum-platform domains (reddit, Hacker News) are not covered. -/
theorem C6_amended_platform :
    (∀ (url h : String), url_host url = some h →
      py_lower h ∈ CandidateDeduper.skip_domains →
      CandidateDeduper.extract_domain url = none) ∧
    (addAll dedup0 [c6m1, c6m2]).map
      (fun d => (d.get_count, d.domain_index)) = some (2, []) := by
  constructor
  · intro url h hh hmem
    unfold CandidateDeduper.extract_domain
    by_cases hu : url = ""
    · simp [hu]
    · rw [if_neg hu, hh]
      simp [hmem]
  · rfl

/-- C6 witness: a `medium.com` URL (with `www.` and mixed case) is
rejected by the normalization. -/
theorem C6_amended_platform_witness :
    CandidateDeduper.extract_domain "https://www.Medium.com/@x" = none :=
  C6_amended_platform.1 "https://www.Medium.com/@x" "Medium.com" rfl (by decide)

/-- C9 counterexample: a record whose only strong signal is a website
string without a scheme has no extractable domain, so nothing is indexed;
its generated id falls back to the object identity, which differs between
the two add calls, and adding the same record twice yields two tracked
entities. -/
theorem C9_counterexample :
    c9cex1.website = some "alexkim.dev" ∧ c9cex2.website = some "alexkim.dev" ∧
    (addAll dedup0 [c9cex1, c9cex2]).map CandidateDeduper.get_count = some 2 :=
  ⟨rfl, rfl, rfl⟩

/-- C9 amended: for every record carrying an indexable strong signal (a
handle or email, a LinkedIn URL with an `/in/` segment, or a website whose
host extraction yields a non-platform domain), adding it twice to a fresh
engine (any threshold) yields exactly one tracked entity: the second add
finds the record through the strong-signal indices under its own id and
merges, and the count stays 1. -/
theorem C9_amended_idempotent (thr : ℚ) (c : Candidate)
    (hs : has_indexable_signal c = true) (hid : c.id ≠ "") :
    ∃ d1 e1 d2 e2,
      (mkDeduper thr).add c = some (d1, e1) ∧ d1.add c = some (d2, e2) ∧
      d1.get_count = 1 ∧ d2.get_count = 1 ∧
      CandidateDeduper.find_existing d1 c = some c.id := by
  have h1 : (mkDeduper thr).add c =
      some (CandidateDeduper.add_new (mkDeduper thr) c) := by
    unfold CandidateDeduper.add
    rw [find_existing_empty]
  have hsh : CandidateDeduper.strong_hit
      (CandidateDeduper.add_new (mkDeduper thr) c).1 c = some c.id :=
    strong_hit_update _ c hs
  have hfe1 : CandidateDeduper.find_existing
      (CandidateDeduper.add_new (mkDeduper thr) c).1 c = some c.id := by
    unfold CandidateDeduper.find_existing
    rw [hsh, po_some]
  have hget : dget (CandidateDeduper.add_new (mkDeduper thr) c).1.candidates c.id =
      some c := by
    show dget [(c.id, c)] c.id = some c
    simp [dget]
  have h2 : (CandidateDeduper.add_new (mkDeduper thr) c).1.add c =
      some (CandidateDeduper.update_indices
        { (CandidateDeduper.add_new (mkDeduper thr) c).1 with
          candidates := dins (CandidateDeduper.add_new (mkDeduper thr) c).1.candidates
            c.id (c.merge_from c) } (c.merge_from c), c.merge_from c) := by
    unfold CandidateDeduper.add
    rw [hfe1]
    simp only [if_neg hid, hget]
  refine ⟨_, _, _, _, h1, h2, rfl, ?_, hfe1⟩
  show (dins [(c.id, c)] c.id (c.merge_from c)).length = 1
  simp [dins]

/-- C9 witness: the double add of a concrete record with a code-host
handle. -/
theorem C9_amended_idempotent_witness :
    ∃ d1 e1 d2 e2,
      (mkDeduper (mkRat 85 100)).add c9w = some (d1, e1) ∧
      d1.add c9w = some (d2, e2) ∧
      d1.get_count = 1 ∧ d2.get_count = 1 ∧
      CandidateDeduper.find_existing d1 c9w = some c9w.id :=
  C9_amended_idempotent (mkRat 85 100) c9w (by decide) (by decide)
